import Mathlib

/-!
Shallow embedding of the MindStream journaling page core
(pages/index.tsx, components/SummaryCard.tsx, pages/api/generate-summary.ts).

The stateful React component is embedded as pure functions over explicit
state records.  Each event handler or async operation becomes a function
from the relevant state plus an environment record (the responses of the
external collaborators: the Supabase client, the summarizer API, the
platform recognizer clock) to the resulting state together with a list of
observable side effects (toasts, status lines, network requests, database
inserts).  Timestamps are modelled as integer milliseconds.
-/

namespace MindStream

/-- Severity of a user-facing toast notification (`showToast` kinds). -/
inductive Severity where
  | info
  | success
  | error
deriving DecidableEq, Repr

/-- An entry row as selected for summary generation
(`select('id, content, created_at, source')`).  `created_at` is the
millisecond timestamp of the row. -/
structure Entry where
  id : String
  content : String
  created_at : Int
  source : String
deriving DecidableEq, Repr

/-- A record inserted into the `summaries` table by `saveRatedSummary`. -/
structure SummaryRecord where
  user_id : String
  range_start : Int
  range_end : Int
  for_date : Int
  summary_text : String
  rating : Int
deriving DecidableEq, Repr

/-- A saved-summary row as held in the page's `summaries` list. -/
structure SummaryRow where
  id : String
  summary_text : String
  rating : Int
  for_date : Int
  range_start : Int
  range_end : Int
  user_id : String
deriving DecidableEq, Repr

/-- An entry row as held in the page's `entries` list. -/
structure EntryRow where
  id : String
  content : String
  source : String
  user_id : String
deriving DecidableEq, Repr

/-- Observable side effects of the page's operations: status-line updates,
toasts, and the requests issued to the external collaborators. -/
inductive Effect where
  | setStatus (msg : String)
  | toast (msg : String) (kind : Severity)
  | readEntriesSince (since : Int)
  | summarizerRequest (entries : List Entry)
  | insertSummary (rec : SummaryRecord)
  | insertEntry (content : String) (source : String) (uid : String)
  | refetchEntries
  | refetchSummaries
  | statsRequest (uid : String) (forDate : Int)
  | streakRefetch
  | scrollToSummaries
  | recognizerStop
deriving DecidableEq, Repr

/-- One day in milliseconds (`24 * 60 * 60 * 1000`). -/
def dayMs : Int := 24 * 60 * 60 * 1000

/-- UTC calendar-day index of a millisecond timestamp; models
`new Date(t).toISOString().slice(0, 10)` for the nonnegative timestamps
considered here (two timestamps get the same key iff they fall on the
same UTC calendar date). -/
def dateKey (t : Int) : Int := t / dayMs

/-- Strip leading and trailing whitespace from a character list. -/
def trimChars (cs : List Char) : List Char :=
  ((cs.dropWhile Char.isWhitespace).reverse.dropWhile Char.isWhitespace).reverse

/-- JS `String.prototype.trim`, modelled over the string's character list. -/
def strTrim (s : String) : String := ⟨trimChars s.data⟩

/-! ### Speech capture session (pages/index.tsx lines 316-389)

The session state is the pair of refs (`holdingRef`, `lastStartTimeRef`)
and the React state (`isRecording`, `interim`, `finalText`). -/

/-- State of the speech capture session. -/
structure SpeechState where
  holding : Bool
  isRecording : Bool
  lastStart : Nat
  interim : String
  finalText : String
deriving DecidableEq, Repr

/-- A transcript fragment delivered by the platform recognizer. -/
structure Fragment where
  text : String
  isFinal : Bool
deriving DecidableEq, Repr

/-- The accumulation loop of `r.onresult`: concatenates the final and the
interim transcripts of one recognizer event (`finalT`, `interimT`). -/
def collectEvent (frags : List Fragment) : String × String :=
  frags.foldl
    (fun acc f => if f.isFinal then (acc.1 ++ f.text, acc.2) else (acc.1, acc.2 ++ f.text))
    ("", "")

/-- The `r.onresult` handler for one recognizer event: a nonempty interim
transcript replaces the live text; a nonempty final transcript is appended
space-joined to the accumulated text (`s ? s + ' ' + finalT : finalT`) and
the live buffer is cleared. -/
def onresult (st : SpeechState) (frags : List Fragment) : SpeechState :=
  let finalT := (collectEvent frags).1
  let interimT := (collectEvent frags).2
  let st1 := if interimT = "" then st else { st with interim := interimT }
  if finalT = "" then st1
  else
    { st1 with
      finalText := if st1.finalText = "" then finalT else st1.finalText ++ " " ++ finalT
      interim := "" }

/-- A sequence of recognizer events folded through `onresult`. -/
def onresultSeq (st : SpeechState) (events : List (List Fragment)) : SpeechState :=
  events.foldl onresult st

/-- The `r.onend` handler at clock time `now`.  Returns the new state and,
when the handler invokes the recognizer's start primitive, the clock time
at which that invocation happens — the code calls `recogRef.current?.start()`
synchronously inside the handler, so that time is `now` itself.  The
restart is guarded by the debounce `now - lastStartTimeRef.current > 1000`
and records `now` as the new last start time. -/
def onend (st : SpeechState) (now : Nat) : SpeechState × Option Nat :=
  if st.holding then
    if 1000 < now - st.lastStart then ({ st with lastStart := now }, some now)
    else (st, none)
  else ({ st with isRecording := false }, none)

/-- `startRecording` (success path: a recognizer is present and its
`start()` does not throw): sets the holding intent, records the start time
for the debounce, and resets the buffers. -/
def startRecording (st : SpeechState) (now : Nat) : SpeechState :=
  { st with holding := true, isRecording := true, lastStart := now, interim := "", finalText := "" }

/-- `stopRecording`: clears the holding intent, requests the recognizer
stop, combines the accumulated text with any remaining interim text, and
reports either "No speech captured." or readiness. -/
def stopRecording (st : SpeechState) : SpeechState × List Effect :=
  let st1 := { st with holding := false, isRecording := false }
  let text := strTrim (st1.finalText ++ (if st1.interim = "" then "" else " " ++ st1.interim))
  if text = "" then
    ({ st1 with interim := "" }, [Effect.recognizerStop, Effect.setStatus "No speech captured."])
  else
    ({ st1 with interim := "", finalText := text },
     [Effect.recognizerStop,
      Effect.setStatus "Transcription ready — edit if needed, then click Save.",
      Effect.toast "Transcription ready — edit and press Save" Severity.info])

/-- The speech state at mount: not holding, not recording, empty buffers. -/
def initialSpeech : SpeechState :=
  { holding := false, isRecording := false, lastStart := 0, interim := "", finalText := "" }

/-! ### Summary lifecycle (pages/index.tsx lines 391-470)

The lifecycle state is the React state `generatedSummary` / `generatedAt`
(`none` draft = Empty, `some` draft = Previewing), `isGenerating`,
`isSavingRating`, `hoverRating` and the saved-summaries list. -/

/-- State of the summary lifecycle as held by the page. -/
structure LifeState where
  generatedSummary : Option String
  generatedAt : Option Int
  hoverRating : Int
  isGenerating : Bool
  isSavingRating : Bool
  summaries : List SummaryRow
deriving DecidableEq, Repr

/-- Environment of one `generate24hSummary` run: the clock at entry, the
response of the entries read, and the response of the summarizer API
(`Except.error` for a thrown query error resp. a non-ok HTTP response). -/
structure GenEnv where
  now : Int
  db : Except String (List Entry)
  api : Except String String

/-- `generate24hSummary`: reads the entries of the trailing 24-hour window
(`since = now - 24h`), returns with a toast when none exist, otherwise
posts them to `/api/generate-summary`; on success stores the returned text
as the draft together with the generation clock time.  `isGenerating` is
set on entry and cleared in the `finally` block, so the returned state has
it cleared on every path.  No branch consults the prior lifecycle state. -/
def generate24hSummary (st : LifeState) (env : GenEnv) : LifeState × List Effect :=
  let since := env.now - dayMs
  match env.db with
  | Except.error _ =>
      ({ st with isGenerating := false },
       [Effect.setStatus "Loading recent entries...", Effect.readEntriesSince since,
        Effect.toast "Generation failed" Severity.error])
  | Except.ok entries24 =>
      if entries24.isEmpty then
        ({ st with isGenerating := false },
         [Effect.setStatus "Loading recent entries...", Effect.readEntriesSince since,
          Effect.toast "No entries in the past 24 hours" Severity.info])
      else
        match env.api with
        | Except.error _ =>
            ({ st with isGenerating := false },
             [Effect.setStatus "Loading recent entries...", Effect.readEntriesSince since,
              Effect.setStatus "Generating reflection — please wait...",
              Effect.summarizerRequest entries24,
              Effect.toast "Couldn’t generate reflection right now" Severity.error])
        | Except.ok summaryText =>
            ({ st with
                generatedSummary := some summaryText
                generatedAt := some env.now
                isGenerating := false },
             [Effect.setStatus "Loading recent entries...", Effect.readEntriesSince since,
              Effect.setStatus "Generating reflection — please wait...",
              Effect.summarizerRequest entries24,
              Effect.toast "Reflection ready" Severity.success])

/-- The "Reflect on your day" button: it carries `disabled={isGenerating}`,
so a click reaches `generate24hSummary` only while `isGenerating` is
false.  This attribute is the only thing standing between a user action
and a re-entrant generation. -/
def clickReflect (st : LifeState) (env : GenEnv) : LifeState × List Effect :=
  if st.isGenerating then (st, []) else generate24hSummary st env

/-- Environment of one `saveRatedSummary` run: the resolved user id (via
`getUser` with a `getSession` fallback), the clock at commit, and the
response of the `summaries` insert (`Except.ok` carries the rows the
insert returned). -/
structure SaveEnv where
  uid : Option String
  now : Int
  insertResult : Except String (List SummaryRow)

/-- `saveRatedSummary rating`: a no-op when no draft exists; otherwise
inserts a summary record built from the draft text, the commit-time window
`[now - 24h, now]`, the commit calendar date and the given rating — the
rating is passed through unchecked.  Only after a successful insert are
the draft fields cleared; a failed insert leaves them (and the summaries
list) untouched and raises an error toast.  `isSavingRating` is set on
entry and cleared in the `finally` block, so the returned state has it
cleared on every path that runs the body. -/
def saveRatedSummary (st : LifeState) (rating : Int) (env : SaveEnv) : LifeState × List Effect :=
  match st.generatedSummary with
  | none => (st, [])
  | some draft =>
    match env.uid with
    | none =>
        ({ st with isSavingRating := false },
         [Effect.setStatus "Saving reflection...",
          Effect.toast "Please sign in to save the reflection" Severity.info])
    | some uid =>
        let record : SummaryRecord :=
          { user_id := uid, range_start := env.now - dayMs, range_end := env.now,
            for_date := dateKey env.now, summary_text := draft, rating := rating }
        match env.insertResult with
        | Except.error msg =>
            ({ st with isSavingRating := false },
             [Effect.setStatus "Saving reflection...", Effect.insertSummary record,
              Effect.toast ("Could not save reflection: " ++ msg) Severity.error])
        | Except.ok rows =>
            let st1 :=
              match rows.head? with
              | some row => { st with summaries := row :: st.summaries }
              | none => st
            ({ st1 with
                generatedSummary := none
                generatedAt := none
                hoverRating := 0
                isSavingRating := false },
             [Effect.setStatus "Saving reflection...", Effect.insertSummary record]
               ++ (match rows.head? with
                   | some _ => []
                   | none => [Effect.refetchSummaries])
               ++ [Effect.statsRequest uid (dateKey env.now), Effect.streakRefetch,
                   Effect.scrollToSummaries])

/-- The JS expression `selectedRating || hoverRating || 5` of
`SummaryCard.handleSave`, with JS truthiness (`null` and `0` are falsy). -/
def ratingToSave (selectedRating : Option Int) (hoverRating : Int) : Int :=
  match selectedRating with
  | some n => if n ≠ 0 then n else if hoverRating ≠ 0 then hoverRating else 5
  | none => if hoverRating ≠ 0 then hoverRating else 5

/-- `SummaryCard.handleSave`: returns the rating value passed on to
`saveRatedSummary`, or `none` when the `localSaving || isSavingRating`
guard suppresses the call.  No branch rejects a value or notifies. -/
def handleSave (localSaving isSavingRating : Bool) (selectedRating : Option Int)
    (hoverRating : Int) : Option Int :=
  if localSaving || isSavingRating then none
  else some (ratingToSave selectedRating hoverRating)

/-! ### Entry commit (pages/index.tsx lines 209-238) -/

/-- State of the entry list and the draft text box. -/
structure EntryState where
  entries : List EntryRow
  finalText : String
deriving DecidableEq, Repr

/-- Environment of one `saveTextEntry` run: the authenticated user id, the
response of the `entries` insert, and the affirmation text drawn by
`randomAffirmation()` for the success toast. -/
structure EntrySaveEnv where
  uid : Option String
  insertResult : Except String (List EntryRow)
  affirmation : String

/-- `saveTextEntry text source`: requires a signed-in user (toast
"Please sign in to save an entry." otherwise), then rejects a draft whose
trimmed text is empty with the toast "Cannot save empty entry." before any
insert.  (`normalize('NFC')` precedes the trim in the code; normalization
maps whitespace-only text to whitespace-only text, so it is dropped from
the model.)  On success the new row is prepended (or the list refetched
when the insert returned no row) and the text box is cleared. -/
def saveTextEntry (st : EntryState) (env : EntrySaveEnv) (text : String) (source : String) :
    EntryState × List Effect :=
  match env.uid with
  | none => (st, [Effect.toast "Please sign in to save an entry." Severity.info])
  | some uid =>
    let trimmed := strTrim text
    if trimmed = "" then (st, [Effect.toast "Cannot save empty entry." Severity.info])
    else
      match env.insertResult with
      | Except.error msg =>
          (st, [Effect.insertEntry trimmed source uid,
                Effect.toast ("Save failed: " ++ msg) Severity.error])
      | Except.ok rows =>
          match rows.head? with
          | some row =>
              ({ st with entries := row :: st.entries, finalText := "" },
               [Effect.insertEntry trimmed source uid,
                Effect.toast env.affirmation Severity.success])
          | none =>
              ({ st with finalText := "" },
               [Effect.insertEntry trimmed source uid, Effect.refetchEntries,
                Effect.toast env.affirmation Severity.success])

/-! ### Summary-generation API handler (pages/api/generate-summary.ts) -/

/-- The ordering used by the handler's sort: newest first (JS comparator
`(a, b) => new Date(b.created_at).getTime() - new Date(a.created_at).getTime()`,
which places `a` before `b` when `a.created_at` is the larger).  JS
`Array.prototype.sort` is stable, as is `List.mergeSort`. -/
def newestFirst (a b : Entry) : Bool := b.created_at ≤ a.created_at

/-- The entries kept for the prompt context:
`entries.sort(newest first).slice(0, 200).reverse()` — the at most 200
newest entries, reordered oldest first. -/
def trimEntries (entries : List Entry) : List Entry :=
  ((entries.mergeSort newestFirst).take 200).reverse

/-- The entries silently dropped by the handler: everything past the 200
newest. -/
def droppedEntries (entries : List Entry) : List Entry :=
  (entries.mergeSort newestFirst).drop 200

/-- Outcome of the handler up to the outbound LLM request: the request
body's `entries` field is modelled as `none` when it is not an array. -/
inductive ApiResult where
  | methodNotAllowed
  | badRequest (msg : String)
  | llmRequest (context : List Entry)
deriving DecidableEq, Repr

/-- The `/api/generate-summary` handler up to the LLM request: non-POST
methods get 405, a non-array `entries` field gets 400 before any LLM call,
and otherwise the chat request is issued with the trimmed, chronological
context. -/
def handler (method : String) (entries : Option (List Entry)) : ApiResult :=
  if method ≠ "POST" then ApiResult.methodNotAllowed
  else
    match entries with
    | none => ApiResult.badRequest "entries array required"
    | some es => ApiResult.llmRequest (trimEntries es)

/-! ### Concrete states and environments used in the closed theorems -/

/-- A lifecycle state with no draft (Empty) and no saved summaries. -/
def emptyLife : LifeState :=
  { generatedSummary := none, generatedAt := none, hoverRating := 0,
    isGenerating := false, isSavingRating := false, summaries := [] }

/-- A lifecycle state previewing a draft. -/
def previewLife : LifeState :=
  { generatedSummary := some "draft text", generatedAt := some 100000000000,
    hoverRating := 0, isGenerating := false, isSavingRating := false, summaries := [] }

/-- A sample entry inside the 24-hour window of `genEnvT1`. -/
def entryA : Entry :=
  { id := "e1", content := "ok", created_at := 99990000000, source := "text" }

/-- A generation environment at clock time T1 = 100000000000 ms whose
window read returns `entryA` and whose summarizer answers successfully. -/
def genEnvT1 : GenEnv :=
  { now := 100000000000, db := Except.ok [entryA], api := Except.ok "summary text" }

/-- A generation environment like `genEnvT1` whose summarizer returns a
second draft. -/
def genEnvB : GenEnv :=
  { now := 100000000000, db := Except.ok [entryA], api := Except.ok "second draft" }

/-- A commit environment at clock time T2 = T1 + 1 h, authenticated, whose
insert succeeds returning no row. -/
def saveEnvT2 : SaveEnv :=
  { uid := some "u1", now := 100003600000, insertResult := Except.ok [] }

/-- A recording-in-progress speech state whose last (re)start was at 0. -/
def recordingSpeech : SpeechState :=
  { holding := true, isRecording := true, lastStart := 0, interim := "", finalText := "" }

/-- An empty entry-list state. -/
def entryState0 : EntryState := { entries := [], finalText := "" }

/-- An entry-save environment with no signed-in user. -/
def anonEntryEnv : EntrySaveEnv :=
  { uid := none, insertResult := Except.ok [], affirmation := "Nice!" }

/-! ## Claims -/

/-- C1 counterexample: the commit path does not reject out-of-range
ratings and does default an unset rating to 5.  `SummaryCard.handleSave`
with nothing selected and nothing hovered submits rating 5
(`selectedRating || hoverRating || 5`), and `saveRatedSummary 6` on a
previewed draft attempts the insert with rating 6 — no local rejection,
no notification of an invalid rating. -/
theorem C1_counterexample :
    handleSave false false none 0 = some 5 ∧
    Effect.insertSummary
        { user_id := "u1", range_start := 99917200000, range_end := 100003600000,
          for_date := 1157, summary_text := "draft text", rating := 6 }
      ∈ (saveRatedSummary previewLife 6 saveEnvT2).2 := by
  decide

/-- C1 (amended): the commit path applies no local rating validation:
whenever a draft exists and a user id resolves, `saveRatedSummary rating`
attempts the `summaries` insert with exactly the rating it was passed —
for every rating value, in range or not — and `SummaryCard.handleSave`
silently defaults an absent selection (null selection, hover 0) to 5
while passing any nonzero selection through. -/
theorem C1_amended (st : LifeState) (draft : String) (rating : Int) (env : SaveEnv)
    (uid : String) (hdraft : st.generatedSummary = some draft) (huid : env.uid = some uid) :
    Effect.insertSummary
        { user_id := uid, range_start := env.now - dayMs, range_end := env.now,
          for_date := dateKey env.now, summary_text := draft, rating := rating }
      ∈ (saveRatedSummary st rating env).2 ∧
    handleSave false false none 0 = some 5 ∧
    (∀ n : Int, n ≠ 0 → handleSave false false (some n) 0 = some n) := by
  refine ⟨?_, by decide, ?_⟩
  · cases hins : env.insertResult with
    | error msg => simp [saveRatedSummary, hdraft, huid, hins]
    | ok rows =>
        cases rows.head? <;>
          simp [saveRatedSummary, hdraft, huid, hins]
  · intro n hn
    simp [handleSave, ratingToSave, hn]

/-- C1 witness: the amended theorem at the concrete previewing state. -/
theorem C1_witness :
    Effect.insertSummary
        { user_id := "u1", range_start := 99917200000, range_end := 100003600000,
          for_date := 1157, summary_text := "draft text", rating := 0 }
      ∈ (saveRatedSummary previewLife 0 saveEnvT2).2 ∧
    handleSave false false none 0 = some 5 ∧
    (∀ n : Int, n ≠ 0 → handleSave false false (some n) 0 = some n) :=
  C1_amended previewLife "draft text" 0 saveEnvT2 "u1" (by decide) (by decide)

/-- C2 counterexample: the range boundaries are recomputed at commit
time, not taken from generation time.  Generation at T1 = 100000000000
reads the window starting at T1 - 24h = 99913600000, but a commit of that
draft at T2 = T1 + 1h inserts range_start = T2 - 24h = 99917200000 and
range_end = T2 — boundaries that differ from the window the draft was
generated from. -/
theorem C2_counterexample :
    Effect.readEntriesSince 99913600000 ∈ (generate24hSummary emptyLife genEnvT1).2 ∧
    Effect.insertSummary
        { user_id := "u1", range_start := 99917200000, range_end := 100003600000,
          for_date := 1157, summary_text := "summary text", rating := 4 }
      ∈ (saveRatedSummary (generate24hSummary emptyLife genEnvT1).1 4 saveEnvT2).2 ∧
    (99917200000 : Int) ≠ 99913600000 := by
  decide

/-- C2 (amended): a commit of a generated draft persists the draft's text
(the text produced at generation) tagged with the calendar date of the
commit, but the range boundaries are recomputed at commit time as
commitTime - 24h and commitTime — the code records no boundaries at
generation (only the text and the generation clock), so the saved range
equals the generation-time window only when commit and generation happen
at the same clock time. -/
theorem C2_amended (stG : LifeState) (envG : GenEnv) (es : List Entry) (s : String)
    (rating : Int) (envS : SaveEnv) (uid : String)
    (hdb : envG.db = Except.ok es) (hes : es ≠ []) (hapi : envG.api = Except.ok s)
    (huid : envS.uid = some uid) :
    (generate24hSummary stG envG).1.generatedSummary = some s ∧
    (generate24hSummary stG envG).1.generatedAt = some envG.now ∧
    Effect.insertSummary
        { user_id := uid, range_start := envS.now - dayMs, range_end := envS.now,
          for_date := dateKey envS.now, summary_text := s, rating := rating }
      ∈ (saveRatedSummary (generate24hSummary stG envG).1 rating envS).2 := by
  cases es with
  | nil => exact absurd rfl hes
  | cons e es0 =>
      have hgen : (generate24hSummary stG envG).1.generatedSummary = some s := by
        simp [generate24hSummary, hdb, hapi]
      refine ⟨hgen, by simp [generate24hSummary, hdb, hapi], ?_⟩
      cases hins : envS.insertResult with
      | error msg => simp [saveRatedSummary, hgen, huid, hins]
      | ok rows =>
          cases rows.head? <;>
            simp [saveRatedSummary, hgen, huid, hins]

/-- C2 witness: the amended theorem at the concrete generation and commit
environments of the counterexample. -/
theorem C2_witness :
    (generate24hSummary emptyLife genEnvT1).1.generatedSummary = some "summary text" ∧
    (generate24hSummary emptyLife genEnvT1).1.generatedAt = some 100000000000 ∧
    Effect.insertSummary
        { user_id := "u1", range_start := 99917200000, range_end := 100003600000,
          for_date := 1157, summary_text := "summary text", rating := 4 }
      ∈ (saveRatedSummary (generate24hSummary emptyLife genEnvT1).1 4 saveEnvT2).2 :=
  C2_amended emptyLife genEnvT1 [entryA] "summary text" 4 saveEnvT2 "u1"
    rfl (by decide) rfl rfl

/-- C3 counterexample: `generate24hSummary` called while a draft is being
previewed (state Previewing, not Empty) is not rejected: it issues a
second summarizer request and overwrites the existing draft. -/
theorem C3_counterexample :
    previewLife.generatedSummary = some "draft text" ∧
    previewLife.isGenerating = false ∧
    Effect.summarizerRequest [entryA] ∈ (generate24hSummary previewLife genEnvB).2 ∧
    (generate24hSummary previewLife genEnvB).1.generatedSummary = some "second draft" := by
  decide

/-- C3 (amended): `generate24hSummary` itself contains no lifecycle-state
guard — its effects are identical from every prior state, so a call while
a draft is being previewed issues another summarizer request (and replaces
the draft).  The only re-entrancy protection is the UI: the Reflect button
carries `disabled={isGenerating}`, so a click while a generation is in
flight never reaches the function; a click while Previewing does. -/
theorem C3_amended (st : LifeState) (env : GenEnv) :
    (st.isGenerating = true → clickReflect st env = (st, [])) ∧
    (∀ st2 : LifeState, (generate24hSummary st env).2 = (generate24hSummary st2 env).2) ∧
    (∀ es, st.isGenerating = false → env.db = Except.ok es → es ≠ [] →
        Effect.summarizerRequest es ∈ (clickReflect st env).2) := by
  refine ⟨fun hg => by simp [clickReflect, hg], ?_, ?_⟩
  · intro st2
    cases hdb : env.db with
    | error e => simp [generate24hSummary, hdb]
    | ok es =>
        cases es with
        | nil => simp [generate24hSummary, hdb]
        | cons e es0 =>
            cases hapi : env.api with
            | error e2 => simp [generate24hSummary, hdb, hapi]
            | ok s => simp [generate24hSummary, hdb, hapi]
  · intro es hg hdb hes
    cases es with
    | nil => exact absurd rfl hes
    | cons e es0 =>
        cases hapi : env.api with
        | error e2 => simp [clickReflect, hg, generate24hSummary, hdb, hapi]
        | ok s => simp [clickReflect, hg, generate24hSummary, hdb, hapi]

/-- C3 witness: the amended theorem at the concrete previewing state. -/
theorem C3_witness :
    (previewLife.isGenerating = true → clickReflect previewLife genEnvB = (previewLife, [])) ∧
    (∀ st2 : LifeState,
        (generate24hSummary previewLife genEnvB).2 = (generate24hSummary st2 genEnvB).2) ∧
    (∀ es, previewLife.isGenerating = false → genEnvB.db = Except.ok es → es ≠ [] →
        Effect.summarizerRequest es ∈ (clickReflect previewLife genEnvB).2) :=
  C3_amended previewLife genEnvB

/-- C4 counterexample: the restart on an 'ended' event with the holding
intent still true is issued synchronously inside the handler — at the
event's own clock time, not after a 100-200 ms delay. -/
theorem C4_counterexample :
    (onend recordingSpeech 5000).2 = some 5000 ∧ ¬ 5000 + 100 ≤ 5000 := by
  decide

/-- C4 (amended): on a recognizer 'ended' event at time `now` with
CaptureIntent still true, the recognizer is restarted immediately (at
`now` itself, with no 100-200 ms delay) provided more than one second has
elapsed since the previous (re)start, and the new start time is recorded;
within the debounce window the restart is skipped; in both cases the
session remains logically Recording (isRecording is untouched).  With
CaptureIntent false the session transitions to Idle and no restart is
issued; in particular after `stopRecording` — at any point — every later
'ended' event yields Idle and never a restart. -/
theorem C4_amended (st : SpeechState) (now : Nat) :
    (st.holding = true → 1000 < now - st.lastStart →
        onend st now = ({ st with lastStart := now }, some now)) ∧
    (st.holding = true → ¬ 1000 < now - st.lastStart → onend st now = (st, none)) ∧
    (st.holding = false → onend st now = ({ st with isRecording := false }, none)) ∧
    (stopRecording st).1.holding = false ∧
    (∀ m, onend (stopRecording st).1 m =
        ({ (stopRecording st).1 with isRecording := false }, none)) := by
  have hstop : (stopRecording st).1.holding = false := by
    unfold stopRecording
    dsimp only
    split <;> split <;> rfl
  refine ⟨fun hh hd => by simp [onend, hh, hd],
          fun hh hd => by simp [onend, hh, hd],
          fun hh => by simp [onend, hh],
          hstop,
          fun m => by simp [onend, hstop]⟩

/-- C4 witness: the amended theorem at the concrete recording state and
event time of the counterexample. -/
theorem C4_witness :
    onend recordingSpeech 5000 = ({ recordingSpeech with lastStart := 5000 }, some 5000) ∧
    onend (stopRecording recordingSpeech).1 9000 =
      ({ (stopRecording recordingSpeech).1 with isRecording := false }, none) :=
  ⟨(C4_amended recordingSpeech 5000).1 (by decide) (by decide),
   (C4_amended recordingSpeech 5000).2.2.2.2 9000⟩

/-- C5: commit clears the draft only on an acknowledged insert.  When a
draft exists and a user id resolves: if the `summaries` insert fails, the
returned state keeps the draft text unchanged and the saved-summaries
list unchanged (the failed insert left no SavedSummary) and an error
toast notifies the user; only when the insert succeeds does the returned
state have the draft cleared (lifecycle back to Empty). -/
theorem C5_commit_atomicity (st : LifeState) (draft : String) (rating : Int) (env : SaveEnv)
    (uid : String) (hdraft : st.generatedSummary = some draft) (huid : env.uid = some uid) :
    (∀ msg, env.insertResult = Except.error msg →
        (saveRatedSummary st rating env).1.generatedSummary = some draft ∧
        (saveRatedSummary st rating env).1.summaries = st.summaries ∧
        Effect.toast ("Could not save reflection: " ++ msg) Severity.error
          ∈ (saveRatedSummary st rating env).2) ∧
    (∀ rows, env.insertResult = Except.ok rows →
        (saveRatedSummary st rating env).1.generatedSummary = none) := by
  constructor
  · intro msg hins
    simp [saveRatedSummary, hdraft, huid, hins]
  · intro rows hins
    cases rows.head? <;>
      simp [saveRatedSummary, hdraft, huid, hins]

/-- C5 witness: the theorem at a concrete previewing state with a failing
insert environment. -/
theorem C5_witness :
    (∀ msg,
        Except.error "boom" = (Except.error msg : Except String (List SummaryRow)) →
        (saveRatedSummary previewLife 4
            { uid := some "u1", now := 100003600000,
              insertResult := Except.error "boom" }).1.generatedSummary = some "draft text" ∧
        (saveRatedSummary previewLife 4
            { uid := some "u1", now := 100003600000,
              insertResult := Except.error "boom" }).1.summaries = previewLife.summaries ∧
        Effect.toast ("Could not save reflection: " ++ msg) Severity.error
          ∈ (saveRatedSummary previewLife 4
              { uid := some "u1", now := 100003600000,
                insertResult := Except.error "boom" }).2) ∧
    (∀ rows,
        (Except.error "boom" : Except String (List SummaryRow)) = Except.ok rows →
        (saveRatedSummary previewLife 4
            { uid := some "u1", now := 100003600000,
              insertResult := Except.error "boom" }).1.generatedSummary = none) :=
  C5_commit_atomicity previewLife "draft text" 4
    { uid := some "u1", now := 100003600000, insertResult := Except.error "boom" }
    "u1" (by decide) (by decide)

/-- C6: transcript merge correctness.  A nonempty interim fragment
replaces the live text and leaves the accumulated text alone; a nonempty
final fragment is appended space-joined to the accumulated text and
clears the live buffer.  Final fragments "hello", "world" delivered in
order accumulate to exactly "hello world", and an interim "wor" delivered
between them and later finalized as "world" leaves the same accumulated
text with nothing duplicated. -/
theorem C6_transcript_merge :
    (∀ st t, t ≠ "" →
        onresult st [{ text := t, isFinal := false }] = { st with interim := t }) ∧
    (∀ st t, t ≠ "" →
        onresult st [{ text := t, isFinal := true }] =
          { st with
            finalText := if st.finalText = "" then t else st.finalText ++ " " ++ t
            interim := "" }) ∧
    onresultSeq initialSpeech
        [[{ text := "hello", isFinal := true }], [{ text := "world", isFinal := true }]] =
      { initialSpeech with finalText := "hello world" } ∧
    onresultSeq initialSpeech
        [[{ text := "hello", isFinal := true }], [{ text := "wor", isFinal := false }],
         [{ text := "world", isFinal := true }]] =
      { initialSpeech with finalText := "hello world", interim := "" } := by
  refine ⟨?_, ?_, by decide, by decide⟩
  · intro st t ht
    simp [onresult, collectEvent, ht]
  · intro st t ht
    simp [onresult, collectEvent, ht]

/-- C6 witness: the theorem's general clauses at concrete fragments. -/
theorem C6_witness :
    onresult initialSpeech [{ text := "wor", isFinal := false }] =
      { initialSpeech with interim := "wor" } ∧
    onresult initialSpeech [{ text := "hello", isFinal := true }] =
      { initialSpeech with
        finalText := if initialSpeech.finalText = "" then "hello"
                     else initialSpeech.finalText ++ " " ++ "hello"
        interim := "" } :=
  ⟨C6_transcript_merge.1 initialSpeech "wor" (by decide),
   C6_transcript_merge.2.1 initialSpeech "hello" (by decide)⟩

/-- C7 counterexample: a commit of whitespace-only text with no signed-in
user is rejected with the toast "Please sign in to save an entry." — the
authentication check precedes the emptiness check, so the user is not
notified "Cannot save empty entry." in that case (no insert is attempted
either way). -/
theorem C7_counterexample :
    saveTextEntry entryState0 anonEntryEnv "   " "text" =
      (entryState0, [Effect.toast "Please sign in to save an entry." Severity.info]) ∧
    Effect.toast "Cannot save empty entry." Severity.info ∉
      (saveTextEntry entryState0 anonEntryEnv "   " "text").2 := by
  decide

/-- C7 (amended): a commit whose text trims to the empty string never
reaches the `entries` insert, changes no state, and always notifies the
user — with "Cannot save empty entry." when a user is signed in, and with
"Please sign in to save an entry." when not (the authentication guard
fires first). -/
theorem C7_amended (st : EntryState) (env : EntrySaveEnv) (text source : String)
    (hempty : strTrim text = "") :
    saveTextEntry st env text source =
      (st, [Effect.toast
              (match env.uid with
               | some _ => "Cannot save empty entry."
               | none => "Please sign in to save an entry.")
              Severity.info]) := by
  cases huid : env.uid with
  | none => simp [saveTextEntry, huid]
  | some uid => simp [saveTextEntry, huid, hempty]

/-- C7 witness: the amended theorem on whitespace-only text with a
signed-in user. -/
theorem C7_witness :
    saveTextEntry entryState0
        { uid := some "u1", insertResult := Except.ok [], affirmation := "Nice!" }
        "  \t " "text" =
      (entryState0, [Effect.toast "Cannot save empty entry." Severity.info]) :=
  C7_amended entryState0
    { uid := some "u1", insertResult := Except.ok [], affirmation := "Nice!" }
    "  \t " "text" (by decide)

/-- C8: a generation whose 24-hour window read returns no entries never
issues a summarizer request, notifies the user with the toast "No entries
in the past 24 hours", and leaves the lifecycle state unchanged apart
from clearing the transient isGenerating flag — in particular a draftless
(Empty) state stays Empty. -/
theorem C8_empty_window (st : LifeState) (env : GenEnv)
    (hdb : env.db = Except.ok []) :
    (∀ es, Effect.summarizerRequest es ∉ (generate24hSummary st env).2) ∧
    Effect.toast "No entries in the past 24 hours" Severity.info
      ∈ (generate24hSummary st env).2 ∧
    (generate24hSummary st env).1 = { st with isGenerating := false } := by
  refine ⟨fun es => ?_, ?_, ?_⟩ <;> simp [generate24hSummary, hdb]

/-- C8 witness: the theorem at the concrete Empty state with an empty
window read. -/
theorem C8_witness :
    (∀ es, Effect.summarizerRequest es ∉
        (generate24hSummary emptyLife
          { now := 100000000000, db := Except.ok [], api := Except.ok "s" }).2) ∧
    Effect.toast "No entries in the past 24 hours" Severity.info
      ∈ (generate24hSummary emptyLife
          { now := 100000000000, db := Except.ok [], api := Except.ok "s" }).2 ∧
    (generate24hSummary emptyLife
        { now := 100000000000, db := Except.ok [], api := Except.ok "s" }).1 =
      { emptyLife with isGenerating := false } :=
  C8_empty_window emptyLife
    { now := 100000000000, db := Except.ok [], api := Except.ok "s" } rfl

/-- C9: the API handler's context trimming.  A POST whose `entries` field
is not an array is answered 400 ("entries array required") with no LLM
request; otherwise the LLM request is issued with `trimEntries`: at most
200 entries, ordered oldest-first (non-decreasing created_at), every
dropped entry no newer than every kept one, and kept plus dropped being a
permutation of the input — so the context is exactly the (at most) 200
most recent entries reordered chronologically, whatever the input order. -/
theorem C9_api_trim :
    handler "POST" none = ApiResult.badRequest "entries array required" ∧
    (∀ es, handler "POST" (some es) = ApiResult.llmRequest (trimEntries es)) ∧
    (∀ es, (trimEntries es).length ≤ 200) ∧
    (∀ es, (trimEntries es).Pairwise (fun a b => a.created_at ≤ b.created_at)) ∧
    (∀ es, ((droppedEntries es).all fun b => (trimEntries es).all fun a =>
        decide (b.created_at ≤ a.created_at)) = true) ∧
    (∀ es, List.Perm (trimEntries es ++ droppedEntries es) es) := by
  have hsorted : ∀ es : List Entry,
      (es.mergeSort newestFirst).Pairwise (fun a b => newestFirst a b = true) := by
    intro es
    exact List.sorted_mergeSort
      (fun a b c hab hbc => by
        simp only [newestFirst, decide_eq_true_eq] at *
        omega)
      (fun a b => by
        simp only [newestFirst, Bool.or_eq_true, decide_eq_true_eq]
        omega)
      es
  refine ⟨by decide, fun es => by simp [handler], fun es => ?_, fun es => ?_, fun es => ?_,
          fun es => ?_⟩
  · simp only [trimEntries, List.length_reverse, List.length_take]
    exact min_le_left _ _
  · have ht : ((es.mergeSort newestFirst).take 200).Pairwise
        (fun a b => newestFirst a b = true) :=
      List.Pairwise.sublist (List.take_sublist _ _) (hsorted es)
    unfold trimEntries
    rw [List.pairwise_reverse]
    exact ht.imp (fun h => by
      simp only [newestFirst, decide_eq_true_eq] at h
      exact h)
  · rw [List.all_eq_true]
    intro b hb
    rw [List.all_eq_true]
    intro a ha
    have hsplit : (es.mergeSort newestFirst).take 200 ++ (es.mergeSort newestFirst).drop 200 =
        es.mergeSort newestFirst := List.take_append_drop _ _
    have hs2 : ((es.mergeSort newestFirst).take 200 ++
        (es.mergeSort newestFirst).drop 200).Pairwise (fun a b => newestFirst a b = true) := by
      rw [hsplit]
      exact hsorted es
    have hcross := (List.pairwise_append.mp hs2).2.2
    have ha2 : a ∈ (es.mergeSort newestFirst).take 200 := by
      rw [trimEntries] at ha
      exact List.mem_reverse.mp ha
    have hb2 : b ∈ (es.mergeSort newestFirst).drop 200 := hb
    have := hcross a ha2 b hb2
    simp only [newestFirst, decide_eq_true_eq] at this
    exact decide_eq_true this
  · have h1 : List.Perm (trimEntries es ++ droppedEntries es) (es.mergeSort newestFirst) := by
      unfold trimEntries droppedEntries
      have h2 : List.Perm
          (((es.mergeSort newestFirst).take 200).reverse ++ (es.mergeSort newestFirst).drop 200)
          ((es.mergeSort newestFirst).take 200 ++ (es.mergeSort newestFirst).drop 200) :=
        (List.reverse_perm _).append_right _
      rw [List.take_append_drop] at h2
      exact h2
    exact h1.trans (List.mergeSort_perm es newestFirst)

/-- C9 witness: the handler theorem at a concrete singleton input. -/
theorem C9_witness :
    handler "POST" (some [entryA]) = ApiResult.llmRequest (trimEntries [entryA]) ∧
    (trimEntries [entryA]).length ≤ 200 :=
  ⟨C9_api_trim.2.1 [entryA], C9_api_trim.2.2.1 [entryA]⟩

/-- C10: the commit operation with no draft present is a complete no-op
for every rating value and environment: the state is returned unchanged
and the effect list is empty — no insert, no notification, no status
change. -/
theorem C10_commit_noop (st : LifeState) (rating : Int) (env : SaveEnv)
    (hdraft : st.generatedSummary = none) :
    saveRatedSummary st rating env = (st, []) := by
  simp [saveRatedSummary, hdraft]

/-- C10 witness: the theorem at the concrete Empty state. -/
theorem C10_witness :
    saveRatedSummary emptyLife 3 saveEnvT2 = (emptyLife, []) :=
  C10_commit_noop emptyLife 3 saveEnvT2 (by decide)

end MindStream
